import Mathlib

/- Shallow embedding of src/original_data/get_data.py and
src/original_data/get_more_data.py: checkpointed pagination over a
paged awards API, a retrying page fetcher, and an append-only tabular
output with optional id-based deduplication in the incremental script. -/

/-- Page size constant RPP, shared by both scripts. -/
def RPP : Nat := 25

/-- Retry bound MAX_RETRIES, shared by both scripts. -/
def MAX_RETRIES : Nat := 3

/-- YEAR_START, shared by both scripts. -/
def YEAR_START : Int := 2019

/-- YEAR_END as fixed in get_data.py.  get_more_data.py instead uses the
current calendar year; every definition that depends on the upper year
bound is parameterized so both scripts are covered. -/
def YEAR_END : Int := 2024

/-- The printFields selection list built in both scripts. -/
def PRINT_FIELDS_LIST : List String :=
  ["agency", "awardeeCountryCode", "awardeeStateCode", "awardeeName",
   "startDate", "expDate", "date", "title", "abstractText"]

/-- PRINT_FIELDS is the comma join of the selection list. -/
def PRINT_FIELDS : String := String.intercalate "," PRINT_FIELDS_LIST

/-- One award record: an optional unique identifier (the id column used
for deduplication, absent when the source response carries no id field)
plus an opaque payload standing for all other columns. -/
structure Row where
  id? : Option String
  val : Nat
  deriving DecidableEq, Repr

/-- The in-memory progress state dictionary of a running process:
year, offset, written_header and total_saved, as mutated by main. -/
structure St where
  year : Int
  offset : Int
  written_header : Bool
  total_saved : Nat
  deriving DecidableEq, Repr

/-- A checkpoint state as parsed from JSON: every field may be absent,
mirroring a JSON object that lacks keys. -/
structure RawState where
  year? : Option Int
  offset? : Option Int
  written_header? : Option Bool
  total_saved? : Option Nat
  deriving DecidableEq, Repr

/-- Contents of the checkpoint file when it exists: either text that
json.load cannot parse, or a parsed JSON object. -/
inductive FileContent
  | corrupt
  | json (s : RawState)
  deriving DecidableEq, Repr

/-- Errors load_checkpoint can propagate to its caller: a JSON decode
failure from json.load, or a KeyError from a missing dictionary key. -/
inductive LoadErr
  | jsonDecodeError
  | keyError (k : String)
  deriving DecidableEq, Repr

/-- load_checkpoint from both scripts, parameterized by the year bounds
and by the written_header value of a fresh state (False in get_data.py,
the existence of the output file in get_more_data.py).  The input is
None when the checkpoint file does not exist.  Mirrors the Python
statement by statement, including the short-circuit evaluation of
`state.get("year", YEAR_END) > YEAR_END or state["year"] < YEAR_START`:
when the first disjunct is false and the year key is absent, the
subscript raises KeyError. -/
def load_checkpointCore (yearStart yearEnd : Int) (freshHeader : Bool) :
    Option FileContent → Except LoadErr RawState
  | none =>
      Except.ok { year? := some yearEnd, offset? := some 1,
                  written_header? := some freshHeader, total_saved? := some 0 }
  | some FileContent.corrupt => Except.error LoadErr.jsonDecodeError
  | some (FileContent.json s) =>
      if yearEnd < s.year?.getD yearEnd then
        Except.ok { s with year? := some yearEnd, offset? := some 1 }
      else
        match s.year? with
        | none => Except.error (LoadErr.keyError "year")
        | some y =>
            if y < yearStart then
              Except.ok { s with year? := some yearEnd, offset? := some 1 }
            else Except.ok s

/-- load_checkpoint of get_data.py (fixed bounds, fresh header False). -/
def GetData.load_checkpoint (file : Option FileContent) : Except LoadErr RawState :=
  load_checkpointCore YEAR_START YEAR_END false file

/-- load_checkpoint of get_more_data.py (upper bound is the current
year, fresh written_header is the existence of the output file). -/
def GetMoreData.load_checkpoint (yearEnd : Int) (outputExists : Bool)
    (file : Option FileContent) : Except LoadErr RawState :=
  load_checkpointCore YEAR_START yearEnd outputExists file

/- ## Page fetcher (fetch_page, identical in both scripts) -/

/-- Outcome of one HTTP attempt: an exception anywhere in the try block
(transport error, bad status, JSON parse failure), or a parsed body
whose nested response.award path is either present or absent. -/
inductive FetchOutcome
  | exc
  | ok (award? : Option (List Row))

/-- Observable result of fetch_page: the returned record list, how many
attempts were made, and the sleeps performed (in seconds, in order). -/
structure FetchResult where
  result : List Row
  attempts : Nat
  sleeps : List Nat
  deriving DecidableEq, Repr

/-- The retry loop of fetch_page: `attempt` is the 1-based attempt
number, the Nat argument is the number of loop iterations left.  On an
exception the loop sleeps 2 * attempt seconds and continues; when
iterations are exhausted it returns an empty list. -/
def fetch_pageFrom (att : Nat → FetchOutcome) : Nat → Nat → FetchResult
  | _, 0 => ⟨[], 0, []⟩
  | attempt, r + 1 =>
    match att attempt with
    | FetchOutcome.ok aw? => ⟨aw?.getD [], 1, []⟩
    | FetchOutcome.exc =>
        let res := fetch_pageFrom att (attempt + 1) r
        ⟨res.result, res.attempts + 1, 2 * attempt :: res.sleeps⟩

/-- fetch_page: run the attempt loop for attempts 1 .. MAX_RETRIES. -/
def fetch_page (att : Nat → FetchOutcome) : FetchResult :=
  fetch_pageFrom att 1 MAX_RETRIES

lemma fetch_pageFrom_attempts_le (att : Nat → FetchOutcome) :
    ∀ (r a : Nat), (fetch_pageFrom att a r).attempts ≤ r := by
  intro r
  induction r with
  | zero => intro a; simp [fetch_pageFrom]
  | succ r ih =>
      intro a
      simp only [fetch_pageFrom]
      cases att a with
      | ok aw? => simp
      | exc => simpa using ih (a + 1)

lemma fetch_pageFrom_sleeps (att : Nat → FetchOutcome) :
    ∀ (r a : Nat),
      List.Chain' (fun x y => x < y) (fetch_pageFrom att a r).sleeps ∧
      ∀ x ∈ (fetch_pageFrom att a r).sleeps, 2 * a ≤ x := by
  intro r
  induction r with
  | zero => intro a; simp [fetch_pageFrom]
  | succ r ih =>
      intro a
      simp only [fetch_pageFrom]
      cases att a with
      | ok aw? => simp
      | exc =>
          obtain ⟨hchain, hbound⟩ := ih (a + 1)
          refine ⟨?_, ?_⟩
          · refine List.chain'_cons'.mpr ⟨?_, hchain⟩
            intro b hb
            have hmem : b ∈ (fetch_pageFrom att (a + 1) r).sleeps :=
              List.mem_of_mem_head? hb
            have := hbound b hmem
            omega
          · intro x hx
            simp only [List.mem_cons] at hx
            rcases hx with h | h
            · omega
            · have := hbound x h
              omega

lemma fetch_pageFrom_allfail (att : Nat → FetchOutcome) :
    ∀ (r a : Nat), (∀ j, a ≤ j → j < a + r → att j = FetchOutcome.exc) →
      fetch_pageFrom att a r =
        ⟨[], r, (List.range r).map (fun i => 2 * (a + i))⟩ := by
  intro r
  induction r with
  | zero => intro a _; simp [fetch_pageFrom]
  | succ r ih =>
      intro a h
      have ha : att a = FetchOutcome.exc := h a (Nat.le_refl a) (by omega)
      simp only [fetch_pageFrom, ha]
      have hrec := ih (a + 1) (fun j hj hj2 => h j (by omega) (by omega))
      rw [hrec]
      simp only [List.range_succ_eq_map, List.map_cons, List.map_map]
      refine congrArg (FetchResult.mk _ _) ?_
      have : (2 * (a + 0)) = 2 * a := by omega
      rw [this]
      refine congrArg (List.cons _) ?_
      refine List.map_congr_left ?_
      intro i _
      simp [Function.comp]
      omega

lemma fetch_pageFrom_success (att : Nat → FetchOutcome) :
    ∀ (r a k : Nat) (aw : Option (List Row)), a ≤ k → k < a + r →
      (∀ j, a ≤ j → j < k → att j = FetchOutcome.exc) →
      att k = FetchOutcome.ok aw →
      (fetch_pageFrom att a r).result = aw.getD [] ∧
      (fetch_pageFrom att a r).attempts = k + 1 - a := by
  intro r
  induction r with
  | zero => intro a k aw h1 h2; omega
  | succ r ih =>
      intro a k aw h1 h2 hfail hok
      rcases Nat.eq_or_lt_of_le h1 with heq | hlt
      · subst heq
        simp [fetch_pageFrom, hok]
      · have ha : att a = FetchOutcome.exc := hfail a (Nat.le_refl a) hlt
        simp only [fetch_pageFrom, ha]
        have hrec := ih (a + 1) k aw hlt (by omega)
          (fun j hj hj2 => hfail j (by omega) hj2) hok
        refine ⟨hrec.1, ?_⟩
        have := hrec.2
        simp only [this]
        omega

/-- C3: fetch_page never raises (it is a total function into a record
list); it makes at most MAX_RETRIES attempts; its sleeps are
2 * attempt seconds and strictly increasing; if every attempt fails it
performs exactly MAX_RETRIES attempts with sleeps 2, 4, 6 and returns
an empty sequence; on the first successful attempt it returns whatever
stands at response.award, with an absent path yielding the empty
sequence. -/
theorem c3_fetch_page_retry_contract (att : Nat → FetchOutcome) :
    (fetch_page att).attempts ≤ MAX_RETRIES ∧
    List.Chain' (fun x y => x < y) (fetch_page att).sleeps ∧
    ((∀ k, 1 ≤ k → k ≤ MAX_RETRIES → att k = FetchOutcome.exc) →
      fetch_page att = ⟨[], MAX_RETRIES, [2, 4, 6]⟩) ∧
    (∀ k aw, 1 ≤ k → k ≤ MAX_RETRIES →
      (∀ j, 1 ≤ j → j < k → att j = FetchOutcome.exc) →
      att k = FetchOutcome.ok aw →
      (fetch_page att).result = aw.getD [] ∧ (fetch_page att).attempts = k) := by
  refine ⟨fetch_pageFrom_attempts_le att MAX_RETRIES 1,
          (fetch_pageFrom_sleeps att MAX_RETRIES 1).1, ?_, ?_⟩
  · intro h
    have := fetch_pageFrom_allfail att MAX_RETRIES 1
      (fun j hj hj2 => h j hj (by simp only [MAX_RETRIES] at hj2 ⊢; omega))
    rw [fetch_page, this]
    simp [MAX_RETRIES]
    decide
  · intro k aw h1 h2 hfail hok
    have := fetch_pageFrom_success att MAX_RETRIES 1 k aw h1
      (by simp only [MAX_RETRIES] at h2 ⊢; omega) hfail hok
    refine ⟨this.1, ?_⟩
    have h := this.2
    rw [fetch_page, h]
    omega

/-- A page for which every attempt raises. -/
def attAllFail : Nat → FetchOutcome := fun _ => FetchOutcome.exc

/-- Witness for C3: on three consecutive failures fetch_page performs
exactly MAX_RETRIES attempts with sleeps 2, 4, 6 and returns []. -/
theorem c3_witness :
    (fetch_page attAllFail).attempts ≤ MAX_RETRIES ∧
    fetch_page attAllFail = ⟨[], MAX_RETRIES, [2, 4, 6]⟩ :=
  ⟨(c3_fetch_page_retry_contract attAllFail).1,
   (c3_fetch_page_retry_contract attAllFail).2.2.1 (fun _ _ _ => rfl)⟩

/- ## Checkpoint loading claims -/

/-- C4: when the persisted year lies outside the configured bounds,
load returns the state with year clamped to the upper bound and offset
reset to 1, all other fields preserved; and every state load returns
has its year inside the bounds. -/
theorem c4_load_clamps_year (yearStart yearEnd : Int) (d : Bool)
    (h : yearStart ≤ yearEnd) :
    (∀ (s : RawState) (y : Int), s.year? = some y →
      (yearEnd < y ∨ y < yearStart) →
      load_checkpointCore yearStart yearEnd d (some (FileContent.json s)) =
        Except.ok { s with year? := some yearEnd, offset? := some 1 }) ∧
    (∀ (file : Option FileContent) (s2 : RawState),
      load_checkpointCore yearStart yearEnd d file = Except.ok s2 →
      ∃ y, s2.year? = some y ∧ yearStart ≤ y ∧ y ≤ yearEnd) := by
  constructor
  · intro s y hy hrange
    simp only [load_checkpointCore, hy, Option.getD_some]
    rcases hrange with hgt | hlt
    · rw [if_pos hgt]
    · simp only [if_neg (show ¬ yearEnd < y from by omega), if_pos hlt]
  · intro file s2 hload
    match file with
    | none =>
        simp only [load_checkpointCore, Except.ok.injEq] at hload
        exact ⟨yearEnd, by rw [← hload], h, le_refl _⟩
    | some FileContent.corrupt =>
        simp [load_checkpointCore] at hload
    | some (FileContent.json s) =>
        simp only [load_checkpointCore] at hload
        split at hload
        · rename_i hgt
          exact ⟨yearEnd, by rw [← (Except.ok.injEq _ _).mp hload], h, le_refl _⟩
        · rename_i hle
          match hys : s.year? with
          | none => rw [hys] at hload; exact absurd hload (by simp)
          | some y =>
              rw [hys] at hload
              simp only at hload
              split at hload
              · rename_i hlt
                exact ⟨yearEnd, by rw [← (Except.ok.injEq _ _).mp hload], h, le_refl _⟩
              · rename_i hge
                rw [hys] at hle
                simp only [Option.getD_some] at hle
                refine ⟨y, ?_, by omega, by omega⟩
                rw [← (Except.ok.injEq _ _).mp hload, hys]

/-- Witness for C4: a persisted year 2030 is clamped to 2024 with
offset 1, preserving the remaining fields. -/
theorem c4_witness :
    (2019 : Int) ≤ 2024 ∧
    load_checkpointCore 2019 2024 false
        (some (FileContent.json ⟨some 2030, some 51, some true, some 7⟩)) =
      Except.ok ⟨some 2024, some 1, some true, some 7⟩ :=
  ⟨by omega,
   (c4_load_clamps_year 2019 2024 false (by omega)).1
     ⟨some 2030, some 51, some true, some 7⟩ 2030 rfl (by omega)⟩

/-- Counterexample for C5: load does not fail open on every corrupt
checkpoint.  A file whose text json.load cannot parse propagates the
decode error instead of returning a fresh default state, and a parsed
state lacking the year key raises KeyError from the range check. -/
theorem c5_corrupt_checkpoint_raises :
    load_checkpointCore 2019 2024 false (some FileContent.corrupt) =
      Except.error LoadErr.jsonDecodeError ∧
    load_checkpointCore 2019 2024 false
        (some (FileContent.json ⟨none, some 5, some true, some 3⟩)) =
      Except.error (LoadErr.keyError "year") ∧
    load_checkpointCore 2019 2024 false (some FileContent.corrupt) ≠
      Except.ok ⟨some 2024, some 1, some false, some 0⟩ := by
  refine ⟨rfl, ?_, by simp [load_checkpointCore]⟩
  simp [load_checkpointCore]

/-- C5 as amended: load fails open only when the checkpoint file is
missing, returning the fresh default state; a present but unparseable
checkpoint propagates the JSON decode error, and a parsed state lacking
the year field raises KeyError. -/
theorem c5_amended_load_missing_fresh_corrupt_error
    (yearStart yearEnd : Int) (d : Bool) :
    load_checkpointCore yearStart yearEnd d none =
      Except.ok ⟨some yearEnd, some 1, some d, some 0⟩ ∧
    load_checkpointCore yearStart yearEnd d (some FileContent.corrupt) =
      Except.error LoadErr.jsonDecodeError ∧
    ∀ s : RawState, s.year? = none →
      load_checkpointCore yearStart yearEnd d (some (FileContent.json s)) =
        Except.error (LoadErr.keyError "year") := by
  refine ⟨rfl, rfl, ?_⟩
  intro s hs
  simp [load_checkpointCore, hs]

/-- Witness for C5 amended: a state with offset but no year raises
KeyError at the configured bounds. -/
theorem c5_amended_witness :
    load_checkpointCore 2019 2024 false none =
      Except.ok ⟨some 2024, some 1, some false, some 0⟩ ∧
    load_checkpointCore 2019 2024 false
        (some (FileContent.json ⟨none, some 26, none, none⟩)) =
      Except.error (LoadErr.keyError "year") :=
  ⟨(c5_amended_load_missing_fresh_corrupt_error 2019 2024 false).1,
   (c5_amended_load_missing_fresh_corrupt_error 2019 2024 false).2.2
     ⟨none, some 26, none, none⟩ rfl⟩

/- ## Row merger (append_chunk) and the output store -/

/-- The output CSV, abstracted as the number of header lines appended so
far plus the ordered sequence of appended record rows. -/
structure Out where
  headers : Nat
  rows : List Row
  deriving DecidableEq, Repr

/-- The duplicate filter done at the top of append_chunk in
get_more_data.py: pandas only exposes an id column when some record of
the batch carries the id field, and in that case rows whose id value
is contained in existing_ids are dropped (rows with a missing id value
survive the isin test).  Without an id column the batch is untouched. -/
def dedupFilter (existing_ids : List String) (df : List Row) : List Row :=
  if df.any (fun r => (r.id?).isSome) then
    df.filter (fun r =>
      match r.id? with
      | some i => !(decide (i ∈ existing_ids))
      | none => true)
  else df

/-- append_chunk of get_data.py: append every row, writing the header
first when the state says it has not been written, then record the
header as written and add the row count to total_saved. -/
def GetData.append_chunk (df : List Row) (st : St) (out : Out) : St × Out :=
  let write_header := !st.written_header
  ({ st with written_header := true, total_saved := st.total_saved + df.length },
   { headers := out.headers + (if write_header then 1 else 0),
     rows := out.rows ++ df })

/-- append_chunk of get_more_data.py: filter duplicates, return 0 and
leave everything untouched when the filtered batch is empty, otherwise
append exactly the filtered rows as in the basic variant and return
their count. -/
def GetMoreData.append_chunk (df : List Row) (st : St)
    (existing_ids : List String) (out : Out) : Nat × St × Out :=
  let df2 := dedupFilter existing_ids df
  if df2.isEmpty then (0, st, out)
  else
    let write_header := !st.written_header
    (df2.length,
     { st with written_header := true, total_saved := st.total_saved + df2.length },
     { headers := out.headers + (if write_header then 1 else 0),
       rows := out.rows ++ df2 })

/-- load_existing_ids of get_more_data.py: no output file yields the
empty set; reading the id column fails (and is caught, yielding the
empty set) when the output has no id column; otherwise the set of the
ids present in the output, with missing values dropped. -/
def load_existing_ids (outputExists : Bool) (out : Out) : List String :=
  if !outputExists then []
  else if out.rows.any (fun r => (r.id?).isSome) then
    out.rows.filterMap (fun r => r.id?)
  else []

/-- The rows the specification says incremental merge keeps: those
whose unique identifier is not contained in existing_ids. -/
def specKept (existing_ids : List String) (df : List Row) : List Row :=
  df.filter (fun r => decide (∀ i ∈ existing_ids, r.id? ≠ some i))

lemma dedupFilter_eq_specKept (ids : List String) (df : List Row)
    (h : ∀ r ∈ df, (r.id?).isSome = true) :
    dedupFilter ids df = specKept ids df := by
  match df with
  | [] => rfl
  | r0 :: tl =>
      have hany : (r0 :: tl).any (fun r => (r.id?).isSome) = true := by
        simp only [List.any_cons, Bool.or_eq_true]
        exact Or.inl (h r0 (List.mem_cons_self r0 tl))
      rw [dedupFilter, if_pos hany, specKept]
      refine List.filter_congr ?_
      intro r hr
      have hsome := h r hr
      match hid : r.id? with
      | some i =>
          simp only [hid, ne_eq, Option.some.injEq]
          by_cases hmem : i ∈ ids
          · rw [decide_eq_true hmem,
                decide_eq_false
                  (show ¬ ∀ j ∈ ids, ¬ i = j from fun hall => hall i hmem rfl)]
            rfl
          · rw [decide_eq_false hmem,
                decide_eq_true
                  (show ∀ j ∈ ids, ¬ i = j from
                    fun j hj hij => hmem (by rw [hij]; exact hj))]
            rfl
      | none => rw [hid] at hsome; exact absurd hsome (by simp)

/-- C6: in incremental mode, for a batch whose records all carry an
identifier, append_chunk appends exactly the rows whose identifier is
not contained in existing_ids and returns their count. -/
theorem c6_incremental_merge_appends_non_duplicates
    (df : List Row) (st : St) (ids : List String) (out : Out)
    (h : ∀ r ∈ df, (r.id?).isSome = true) :
    (GetMoreData.append_chunk df st ids out).1 = (specKept ids df).length ∧
    (GetMoreData.append_chunk df st ids out).2.2.rows = out.rows ++ specKept ids df := by
  rw [GetMoreData.append_chunk]
  rw [dedupFilter_eq_specKept ids df h]
  by_cases hemp : (specKept ids df).isEmpty
  · rw [if_pos hemp]
    have : specKept ids df = [] := by
      cases hk : specKept ids df
      · rfl
      · rw [hk] at hemp; exact absurd hemp (by simp)
    simp [this]
  · rw [if_neg hemp]
    exact ⟨rfl, rfl⟩

/-- Witness for C6: with "A123" already persisted, a batch holding one
record with id "A123" and one with id "B456" appends only the latter. -/
theorem c6_witness :
    (GetMoreData.append_chunk
        [⟨some "A123", 0⟩, ⟨some "B456", 1⟩] ⟨2024, 1, true, 5⟩ ["A123"] ⟨1, []⟩).1 = 1 ∧
    (GetMoreData.append_chunk
        [⟨some "A123", 0⟩, ⟨some "B456", 1⟩] ⟨2024, 1, true, 5⟩ ["A123"] ⟨1, []⟩).2.2.rows =
      [⟨some "B456", 1⟩] := by
  have h := c6_incremental_merge_appends_non_duplicates
    [⟨some "A123", 0⟩, ⟨some "B456", 1⟩] ⟨2024, 1, true, 5⟩ ["A123"] ⟨1, []⟩
    (by intro r hr; fin_cases hr <;> rfl)
  refine ⟨h.1.trans ?_, h.2.trans ?_⟩ <;> decide

/-- C9: when every row of the batch is filtered out as a duplicate,
append_chunk performs no write, returns 0, and leaves the progress
state and the output store exactly as they were. -/
theorem c9_all_duplicates_no_write_state_unchanged
    (df : List Row) (st : St) (ids : List String) (out : Out)
    (h : dedupFilter ids df = []) :
    GetMoreData.append_chunk df st ids out = (0, st, out) := by
  rw [GetMoreData.append_chunk, h]
  rfl

/-- Witness for C9: a one-record batch whose id is already persisted
leaves count, state and output untouched. -/
theorem c9_witness :
    GetMoreData.append_chunk [⟨some "A123", 0⟩] ⟨2024, 26, false, 3⟩ ["A123"]
        ⟨0, [⟨some "A123", 0⟩]⟩ =
      (0, ⟨2024, 26, false, 3⟩, ⟨0, [⟨some "A123", 0⟩]⟩) :=
  c9_all_duplicates_no_write_state_unchanged
    [⟨some "A123", 0⟩] ⟨2024, 26, false, 3⟩ ["A123"] ⟨0, [⟨some "A123", 0⟩]⟩
    (by decide)

/-- C10: the configured field selection list contains no id field, and
a batch whose records all lack the id field bypasses the duplicate
filter entirely: append_chunk appends every row unconditionally, even
when identical records already sit in the output store. -/
theorem c10_no_id_column_appends_all
    (df : List Row) (st : St) (ids : List String) (out : Out)
    (h : ∀ r ∈ df, r.id? = none) (hne : df ≠ []) :
    "id" ∉ PRINT_FIELDS_LIST ∧
    GetMoreData.append_chunk df st ids out =
      (df.length,
       { st with written_header := true,
                 total_saved := st.total_saved + df.length },
       { headers := out.headers + (if !st.written_header then 1 else 0),
         rows := out.rows ++ df }) := by
  refine ⟨by decide, ?_⟩
  have hnoid : df.any (fun r => (r.id?).isSome) = false := by
    rw [List.any_eq_false]
    intro r hr
    rw [h r hr]
    simp
  have hfilt : dedupFilter ids df = df := by
    rw [dedupFilter, hnoid]
    simp
  rw [GetMoreData.append_chunk, hfilt]
  rw [if_neg (by simpa using hne)]

/-- Witness for C10: a batch holding a single id-less record identical
to one already stored is appended again. -/
theorem c10_witness :
    "id" ∉ PRINT_FIELDS_LIST ∧
    GetMoreData.append_chunk [⟨none, 7⟩] ⟨2024, 1, true, 1⟩ [] ⟨1, [⟨none, 7⟩]⟩ =
      (1, ⟨2024, 1, true, 2⟩, ⟨1, [⟨none, 7⟩, ⟨none, 7⟩]⟩) := by
  have h := c10_no_id_column_appends_all [⟨none, 7⟩] ⟨2024, 1, true, 1⟩ []
    ⟨1, [⟨none, 7⟩]⟩ (by intro r hr; fin_cases hr; rfl) (by decide)
  exact ⟨h.1, h.2.trans (by decide)⟩

/- ## Driving loops -/

/-- The state mutation performed when year y is exhausted:
y -= 1 is stored into the year field and the offset is reset to 1. -/
def St.exhaustYear (st : St) (y : Int) : St :=
  { st with year := y - 1, offset := 1 }

/-- The state mutation performed by append_chunk after writing n rows:
written_header becomes True and total_saved grows by n. -/
def St.afterAppend (st : St) (n : Nat) : St :=
  { st with written_header := true, total_saved := st.total_saved + n }

/-- The state mutation performed when the inner loop advances the
offset. -/
def St.withOffset (st : St) (off : Int) : St :=
  { st with offset := off }

/-- Observable events of a run, in order: each page request issued
(with the records the fetcher returned), each block of rows appended to
the output file (with whether a header line was written first), and
each checkpoint file write (with the exact persisted state). -/
inductive Ev
  | fetched (y off : Int) (rows : List Row)
  | appended (header : Bool) (rows : List Row)
  | saved (st : St)
  deriving DecidableEq, Repr

/-- Rows appended to the output over a trace, in order. -/
def appendsOf : List Ev → List Row
  | [] => []
  | Ev.appended _ rs :: tr => rs ++ appendsOf tr
  | _ :: tr => appendsOf tr

/-- Checkpoint states persisted over a trace, in order. -/
def savesOf : List Ev → List St
  | [] => []
  | Ev.saved st :: tr => st :: savesOf tr
  | _ :: tr => savesOf tr

/-- Prefix of a trace up to and including its k-th (0-based) checkpoint
save: the events a process performs before being terminated right after
that save. -/
def cutAfterSave : Nat → List Ev → List Ev
  | _, [] => []
  | 0, Ev.saved st :: _ => [Ev.saved st]
  | k + 1, Ev.saved st :: tr => Ev.saved st :: cutAfterSave k tr
  | k, e :: tr => e :: cutAfterSave k tr

/-- Header flags of the append events of a trace, in order. -/
def headerFlags : List Ev → List Bool
  | [] => []
  | Ev.appended b _ :: tr => b :: headerFlags tr
  | _ :: tr => headerFlags tr

/-- The effect of load_checkpoint on a complete well-formed persisted
state: out-of-range years are clamped to the upper bound with offset
reset to 1, everything else is returned unchanged (see the
correspondence lemma load_checkpointCore_toRaw below). -/
def loadFromSaved (yearStart yearEnd : Int) (s : St) : St :=
  if yearEnd < s.year ∨ s.year < yearStart then
    { s with year := yearEnd, offset := 1 }
  else s

/-- A full in-memory state serialized to checkpoint JSON. -/
def St.toRaw (s : St) : RawState :=
  { year? := some s.year, offset? := some s.offset,
    written_header? := some s.written_header, total_saved? := some s.total_saved }

lemma load_checkpointCore_toRaw (yearStart yearEnd : Int) (d : Bool) (s : St) :
    load_checkpointCore yearStart yearEnd d (some (FileContent.json s.toRaw)) =
      Except.ok (loadFromSaved yearStart yearEnd s).toRaw := by
  rw [load_checkpointCore, loadFromSaved, St.toRaw]
  simp only [Option.getD_some]
  by_cases hgt : yearEnd < s.year
  · rw [if_pos hgt, if_pos (Or.inl hgt)]
    rfl
  · rw [if_neg hgt]
    by_cases hlt : s.year < yearStart
    · rw [if_pos hlt, if_pos (Or.inr hlt)]
      rfl
    · rw [if_neg hlt, if_neg (by tauto)]
      rfl

/-- The nested while loops of main in get_data.py, driven by a fuel
bound on the number of page fetches.  Arguments y and off are the local
variables of main; the St argument is the state dictionary.  Each
recursive call re-enters the loop exactly where the source transfers
control: the outer loop recomputes the offset as max(state offset, 1)
after a year is exhausted, the inner loop keeps its own offset
otherwise.  The result is the event trace plus the final state. -/
def GetData.runAux (fetch : Int → Int → List Row) :
    Int → Int → St → Nat → List Ev × St
  | _, _, st, 0 => ([], st)
  | y, off, st, fuel + 1 =>
    if y < YEAR_START then ([], st)
    else
      if (fetch y off).isEmpty then
        let st1 : St := st.exhaustYear y
        let r := GetData.runAux fetch (y - 1) (max st1.offset 1) st1 fuel
        (Ev.fetched y off (fetch y off) :: Ev.saved st1 :: r.1, r.2)
      else
        let st1 : St := st.afterAppend (fetch y off).length
        if (fetch y off).length < RPP then
          let st2 : St := st1.exhaustYear y
          let r := GetData.runAux fetch (y - 1) (max st2.offset 1) st2 fuel
          (Ev.fetched y off (fetch y off) ::
             Ev.appended (!st.written_header) (fetch y off) ::
             Ev.saved st1 :: Ev.saved st2 :: r.1, r.2)
        else
          let st2 : St := st1.withOffset (off + (RPP : Int))
          let r := GetData.runAux fetch y (off + (RPP : Int)) st2 fuel
          (Ev.fetched y off (fetch y off) ::
             Ev.appended (!st.written_header) (fetch y off) ::
             Ev.saved st1 :: Ev.saved st2 :: r.1, r.2)

/-- main of get_data.py after loading the state st0: the loop starts at
year st0.year with offset max(st0.offset, 1). -/
def GetData.mainRun (fetch : Int → Int → List Row) (st0 : St) (fuel : Nat) :
    List Ev × St :=
  GetData.runAux fetch st0.year (max st0.offset 1) st0 fuel

/-- A restarted process: load the persisted state through the
checkpoint clamp, then run main. -/
def GetData.resumeRun (fetch : Int → Int → List Row) (persisted : St)
    (fuel : Nat) : List Ev × St :=
  GetData.mainRun fetch (loadFromSaved YEAR_START YEAR_END persisted) fuel

/-- The state right after append_chunk of get_more_data.py runs on a
batch: untouched when the whole filtered batch is empty, otherwise the
usual append mutation with the filtered row count. -/
def GetMoreData.st1Of (existing_ids : List String) (rows : List Row) (st : St) : St :=
  if (dedupFilter existing_ids rows).isEmpty then st
  else st.afterAppend (dedupFilter existing_ids rows).length

/-- The events of fetching one non-empty page and running append_chunk
on it, ending with the checkpoint save that follows append_chunk: no
append event happens when the filtered batch is empty. -/
def GetMoreData.evsOf (existing_ids : List String) (y off : Int)
    (rows : List Row) (st : St) : List Ev :=
  if (dedupFilter existing_ids rows).isEmpty then
    [Ev.fetched y off rows, Ev.saved (GetMoreData.st1Of existing_ids rows st)]
  else
    [Ev.fetched y off rows,
     Ev.appended (!st.written_header) (dedupFilter existing_ids rows),
     Ev.saved (GetMoreData.st1Of existing_ids rows st)]

/-- The nested while loops of main in get_more_data.py: identical
navigation to get_data.py, but append_chunk filters the batch against
existing_ids before writing (appending nothing and leaving the state
alone when the filtered batch is empty), and the page bookkeeping uses
the unfiltered count. -/
def GetMoreData.runAux (fetch : Int → Int → List Row)
    (existing_ids : List String) : Int → Int → St → Nat → List Ev × St
  | _, _, st, 0 => ([], st)
  | y, off, st, fuel + 1 =>
    if y < YEAR_START then ([], st)
    else
      if (fetch y off).isEmpty then
        let st1 : St := st.exhaustYear y
        let r := GetMoreData.runAux fetch existing_ids (y - 1) (max st1.offset 1) st1 fuel
        (Ev.fetched y off (fetch y off) :: Ev.saved st1 :: r.1, r.2)
      else
        let st1 : St := GetMoreData.st1Of existing_ids (fetch y off) st
        let evs : List Ev := GetMoreData.evsOf existing_ids y off (fetch y off) st
        if (fetch y off).length < RPP then
          let st2 : St := st1.exhaustYear y
          let r := GetMoreData.runAux fetch existing_ids (y - 1) (max st2.offset 1) st2 fuel
          (evs ++ Ev.saved st2 :: r.1, r.2)
        else
          let st2 : St := st1.withOffset (off + (RPP : Int))
          let r := GetMoreData.runAux fetch existing_ids y (off + (RPP : Int)) st2 fuel
          (evs ++ Ev.saved st2 :: r.1, r.2)

/-- main of get_more_data.py after loading state st0 and the existing
id set. -/
def GetMoreData.mainRun (fetch : Int → Int → List Row)
    (existing_ids : List String) (st0 : St) (fuel : Nat) : List Ev × St :=
  GetMoreData.runAux fetch existing_ids st0.year (max st0.offset 1) st0 fuel

/- ## Unfolding equations for the get_data.py loop -/

lemma GetData.runAux_zero (fetch : Int → Int → List Row) (y off : Int) (st : St) :
    GetData.runAux fetch y off st 0 = ([], st) := rfl

lemma GetData.runAux_done (fetch : Int → Int → List Row) (y off : Int) (st : St)
    (fuel : Nat) (h : y < YEAR_START) :
    GetData.runAux fetch y off st (fuel + 1) = ([], st) := by
  rw [GetData.runAux, if_pos h]

lemma GetData.runAux_emptyPage (fetch : Int → Int → List Row) (y off : Int)
    (st : St) (fuel : Nat) (h1 : ¬ y < YEAR_START) (h2 : fetch y off = []) :
    GetData.runAux fetch y off st (fuel + 1) =
      (Ev.fetched y off [] :: Ev.saved (st.exhaustYear y) ::
         (GetData.runAux fetch (y - 1) 1 (st.exhaustYear y) fuel).1,
       (GetData.runAux fetch (y - 1) 1 (st.exhaustYear y) fuel).2) := by
  rw [GetData.runAux, if_neg h1, if_pos (by simp [h2])]
  simp only [h2]
  rfl

lemma GetData.runAux_shortPage (fetch : Int → Int → List Row) (y off : Int)
    (st : St) (fuel : Nat) (h1 : ¬ y < YEAR_START) (h2 : fetch y off ≠ [])
    (h3 : (fetch y off).length < RPP) :
    GetData.runAux fetch y off st (fuel + 1) =
      (Ev.fetched y off (fetch y off) ::
         Ev.appended (!st.written_header) (fetch y off) ::
         Ev.saved (st.afterAppend (fetch y off).length) ::
         Ev.saved ((st.afterAppend (fetch y off).length).exhaustYear y) ::
         (GetData.runAux fetch (y - 1) 1
            ((st.afterAppend (fetch y off).length).exhaustYear y) fuel).1,
       (GetData.runAux fetch (y - 1) 1
          ((st.afterAppend (fetch y off).length).exhaustYear y) fuel).2) := by
  rw [GetData.runAux, if_neg h1, if_neg (by simp [List.isEmpty_iff, h2]),
      if_pos h3]
  rfl

lemma GetData.runAux_fullPage (fetch : Int → Int → List Row) (y off : Int)
    (st : St) (fuel : Nat) (h1 : ¬ y < YEAR_START) (h2 : fetch y off ≠ [])
    (h3 : ¬ (fetch y off).length < RPP) :
    GetData.runAux fetch y off st (fuel + 1) =
      (Ev.fetched y off (fetch y off) ::
         Ev.appended (!st.written_header) (fetch y off) ::
         Ev.saved (st.afterAppend (fetch y off).length) ::
         Ev.saved ((st.afterAppend (fetch y off).length).withOffset (off + (RPP : Int))) ::
         (GetData.runAux fetch y (off + (RPP : Int))
            ((st.afterAppend (fetch y off).length).withOffset (off + (RPP : Int))) fuel).1,
       (GetData.runAux fetch y (off + (RPP : Int))
          ((st.afterAppend (fetch y off).length).withOffset (off + (RPP : Int))) fuel).2) := by
  rw [GetData.runAux, if_neg h1, if_neg (by simp [List.isEmpty_iff, h2]),
      if_neg h3]

/-- Fetches issued by the loop never concern a year above the year the
loop was entered with. -/
lemma GetData.runAux_fetched_year_le (fetch : Int → Int → List Row) :
    ∀ (fuel : Nat) (y off : Int) (st : St) (y1 off1 : Int) (rs : List Row),
      Ev.fetched y1 off1 rs ∈ (GetData.runAux fetch y off st fuel).1 → y1 ≤ y := by
  intro fuel
  induction fuel with
  | zero => intro y off st y1 off1 rs h; simp [GetData.runAux_zero] at h
  | succ fuel ih =>
      intro y off st y1 off1 rs h
      by_cases h1 : y < YEAR_START
      · rw [GetData.runAux_done fetch y off st fuel h1] at h
        simp at h
      by_cases h2 : fetch y off = []
      · rw [GetData.runAux_emptyPage fetch y off st fuel h1 h2] at h
        simp only [List.mem_cons] at h
        rcases h with h | h | h
        · cases h; omega
        · cases h
        · have := ih (y - 1) 1 (St.exhaustYear st y) y1 off1 rs h
          omega
      by_cases h3 : (fetch y off).length < RPP
      · rw [GetData.runAux_shortPage fetch y off st fuel h1 h2 h3] at h
        simp only [List.mem_cons] at h
        rcases h with h | h | h | h | h
        · cases h; omega
        · cases h
        · cases h
        · cases h
        · have := ih (y - 1) 1 ((st.afterAppend (fetch y off).length).exhaustYear y)
            y1 off1 rs h
          omega
      · rw [GetData.runAux_fullPage fetch y off st fuel h1 h2 h3] at h
        simp only [List.mem_cons] at h
        rcases h with h | h | h | h | h
        · cases h; omega
        · cases h
        · cases h
        · cases h
        · exact ih y (off + (RPP : Int))
            ((st.afterAppend (fetch y off).length).withOffset (off + (RPP : Int)))
            y1 off1 rs h

/-- C2: one inner-loop step of main in get_data.py.  An empty page
exhausts the year: the decremented year and offset 1 are stored and
persisted and no further fetch is issued for that year.  A short
non-empty page is merged and persisted first and then exhausts the year
the same way, with no extra empty-page fetch.  A page of exactly RPP
records advances the offset by RPP, persists, and continues fetching
the same year at the new offset. -/
theorem c2_year_exhaustion_and_offset_advance
    (fetch : Int → Int → List Row) (y off : Int) (st : St) (fuel : Nat)
    (hy : YEAR_START ≤ y) :
    (fetch y off = [] →
      GetData.runAux fetch y off st (fuel + 1) =
        (Ev.fetched y off [] :: Ev.saved (st.exhaustYear y) ::
           (GetData.runAux fetch (y - 1) 1 (st.exhaustYear y) fuel).1,
         (GetData.runAux fetch (y - 1) 1 (st.exhaustYear y) fuel).2) ∧
      ∀ off1 rs, Ev.fetched y off1 rs ∉
        (GetData.runAux fetch (y - 1) 1 (st.exhaustYear y) fuel).1) ∧
    (fetch y off ≠ [] → (fetch y off).length < RPP →
      GetData.runAux fetch y off st (fuel + 1) =
        (Ev.fetched y off (fetch y off) ::
           Ev.appended (!st.written_header) (fetch y off) ::
           Ev.saved (st.afterAppend (fetch y off).length) ::
           Ev.saved ((st.afterAppend (fetch y off).length).exhaustYear y) ::
           (GetData.runAux fetch (y - 1) 1
              ((st.afterAppend (fetch y off).length).exhaustYear y) fuel).1,
         (GetData.runAux fetch (y - 1) 1
            ((st.afterAppend (fetch y off).length).exhaustYear y) fuel).2) ∧
      ∀ off1 rs, Ev.fetched y off1 rs ∉
        (GetData.runAux fetch (y - 1) 1
          ((st.afterAppend (fetch y off).length).exhaustYear y) fuel).1) ∧
    ((fetch y off).length = RPP →
      GetData.runAux fetch y off st (fuel + 1) =
        (Ev.fetched y off (fetch y off) ::
           Ev.appended (!st.written_header) (fetch y off) ::
           Ev.saved (st.afterAppend (fetch y off).length) ::
           Ev.saved ((st.afterAppend (fetch y off).length).withOffset (off + (RPP : Int))) ::
           (GetData.runAux fetch y (off + (RPP : Int))
              ((st.afterAppend (fetch y off).length).withOffset (off + (RPP : Int))) fuel).1,
         (GetData.runAux fetch y (off + (RPP : Int))
            ((st.afterAppend (fetch y off).length).withOffset (off + (RPP : Int))) fuel).2)) := by
  have h1 : ¬ y < YEAR_START := by omega
  refine ⟨?_, ?_, ?_⟩
  · intro h2
    refine ⟨GetData.runAux_emptyPage fetch y off st fuel h1 h2, ?_⟩
    intro off1 rs hmem
    have := GetData.runAux_fetched_year_le fetch fuel (y - 1) 1
      (St.exhaustYear st y) y off1 rs hmem
    omega
  · intro h2 h3
    refine ⟨GetData.runAux_shortPage fetch y off st fuel h1 h2 h3, ?_⟩
    intro off1 rs hmem
    have := GetData.runAux_fetched_year_le fetch fuel (y - 1) 1
      ((st.afterAppend (fetch y off).length).exhaustYear y) y off1 rs hmem
    omega
  · intro hrpp
    have h2 : fetch y off ≠ [] := by
      intro hcon
      rw [hcon] at hrpp
      simp [RPP] at hrpp
    have h3 : ¬ (fetch y off).length < RPP := by omega
    exact GetData.runAux_fullPage fetch y off st fuel h1 h2 h3

/-- A page environment used as witness input: year 2024 has one full
page of 25 records at offset 1 and a short page of 10 records at
offset 26; every other request returns nothing. -/
def envC2 : Int → Int → List Row := fun y off =>
  if y = 2024 ∧ off = 1 then (List.range 25).map (fun n => ⟨none, n⟩)
  else if y = 2024 ∧ off = 26 then (List.range 10).map (fun n => ⟨none, n⟩)
  else []

/-- Witness for C2, short-page case: at (2024, 26) the 10 returned
records are merged and persisted, the year is exhausted with offset
reset to 1, and the remaining trace fetches only earlier years. -/
theorem c2_witness :
    GetData.runAux envC2 2024 26 ⟨2024, 26, true, 25⟩ 4 =
      ([Ev.fetched 2024 26 ((List.range 10).map (fun n => ⟨none, n⟩)),
        Ev.appended false ((List.range 10).map (fun n => ⟨none, n⟩)),
        Ev.saved ⟨2024, 26, true, 35⟩, Ev.saved ⟨2023, 1, true, 35⟩,
        Ev.fetched 2023 1 [], Ev.saved ⟨2022, 1, true, 35⟩,
        Ev.fetched 2022 1 [], Ev.saved ⟨2021, 1, true, 35⟩,
        Ev.fetched 2021 1 [], Ev.saved ⟨2020, 1, true, 35⟩],
       ⟨2020, 1, true, 35⟩) := by
  have h := (c2_year_exhaustion_and_offset_advance envC2 2024 26
    ⟨2024, 26, true, 25⟩ 3 (by decide)).2.1 (by decide) (by decide)
  exact h.1.trans (by decide)

/- ## Unfolding equations for the get_more_data.py loop -/

lemma GetMoreData.runMore_zero (fetch : Int → Int → List Row)
    (ids : List String) (y off : Int) (st : St) :
    GetMoreData.runAux fetch ids y off st 0 = ([], st) := rfl

lemma GetMoreData.runMore_done (fetch : Int → Int → List Row)
    (ids : List String) (y off : Int) (st : St) (fuel : Nat)
    (h : y < YEAR_START) :
    GetMoreData.runAux fetch ids y off st (fuel + 1) = ([], st) := by
  rw [GetMoreData.runAux, if_pos h]

lemma GetMoreData.runMore_emptyPage (fetch : Int → Int → List Row)
    (ids : List String) (y off : Int) (st : St) (fuel : Nat)
    (h1 : ¬ y < YEAR_START) (h2 : fetch y off = []) :
    GetMoreData.runAux fetch ids y off st (fuel + 1) =
      (Ev.fetched y off [] :: Ev.saved (st.exhaustYear y) ::
         (GetMoreData.runAux fetch ids (y - 1) 1 (st.exhaustYear y) fuel).1,
       (GetMoreData.runAux fetch ids (y - 1) 1 (st.exhaustYear y) fuel).2) := by
  rw [GetMoreData.runAux, if_neg h1, if_pos (by simp [h2])]
  simp only [h2]
  rfl

lemma GetMoreData.runMore_shortPage (fetch : Int → Int → List Row)
    (ids : List String) (y off : Int) (st : St) (fuel : Nat)
    (h1 : ¬ y < YEAR_START) (h2 : fetch y off ≠ [])
    (h3 : (fetch y off).length < RPP) :
    GetMoreData.runAux fetch ids y off st (fuel + 1) =
      (GetMoreData.evsOf ids y off (fetch y off) st ++
         Ev.saved ((GetMoreData.st1Of ids (fetch y off) st).exhaustYear y) ::
         (GetMoreData.runAux fetch ids (y - 1) 1
           ((GetMoreData.st1Of ids (fetch y off) st).exhaustYear y) fuel).1,
       (GetMoreData.runAux fetch ids (y - 1) 1
         ((GetMoreData.st1Of ids (fetch y off) st).exhaustYear y) fuel).2) := by
  rw [GetMoreData.runAux, if_neg h1, if_neg (by simp [List.isEmpty_iff, h2]),
      if_pos h3]
  rfl

lemma GetMoreData.runMore_fullPage (fetch : Int → Int → List Row)
    (ids : List String) (y off : Int) (st : St) (fuel : Nat)
    (h1 : ¬ y < YEAR_START) (h2 : fetch y off ≠ [])
    (h3 : ¬ (fetch y off).length < RPP) :
    GetMoreData.runAux fetch ids y off st (fuel + 1) =
      (GetMoreData.evsOf ids y off (fetch y off) st ++
         Ev.saved ((GetMoreData.st1Of ids (fetch y off) st).withOffset
           (off + (RPP : Int))) ::
         (GetMoreData.runAux fetch ids y (off + (RPP : Int))
           ((GetMoreData.st1Of ids (fetch y off) st).withOffset
             (off + (RPP : Int))) fuel).1,
       (GetMoreData.runAux fetch ids y (off + (RPP : Int))
         ((GetMoreData.st1Of ids (fetch y off) st).withOffset
           (off + (RPP : Int))) fuel).2) := by
  rw [GetMoreData.runAux, if_neg h1, if_neg (by simp [List.isEmpty_iff, h2]),
      if_neg h3]

/- ## Projection lemmas for the state transformers -/

@[simp] lemma St.exhaustYear_year (st : St) (y : Int) :
    (st.exhaustYear y).year = y - 1 := rfl

@[simp] lemma St.exhaustYear_offset (st : St) (y : Int) :
    (st.exhaustYear y).offset = 1 := rfl

@[simp] lemma St.exhaustYear_written_header (st : St) (y : Int) :
    (st.exhaustYear y).written_header = st.written_header := rfl

@[simp] lemma St.exhaustYear_total_saved (st : St) (y : Int) :
    (st.exhaustYear y).total_saved = st.total_saved := rfl

@[simp] lemma St.afterAppend_year (st : St) (n : Nat) :
    (st.afterAppend n).year = st.year := rfl

@[simp] lemma St.afterAppend_offset (st : St) (n : Nat) :
    (st.afterAppend n).offset = st.offset := rfl

@[simp] lemma St.afterAppend_written_header (st : St) (n : Nat) :
    (st.afterAppend n).written_header = true := rfl

@[simp] lemma St.afterAppend_total_saved (st : St) (n : Nat) :
    (st.afterAppend n).total_saved = st.total_saved + n := rfl

@[simp] lemma St.withOffset_year (st : St) (off : Int) :
    (st.withOffset off).year = st.year := rfl

@[simp] lemma St.withOffset_offset (st : St) (off : Int) :
    (st.withOffset off).offset = off := rfl

@[simp] lemma St.withOffset_written_header (st : St) (off : Int) :
    (st.withOffset off).written_header = st.written_header := rfl

@[simp] lemma St.withOffset_total_saved (st : St) (off : Int) :
    (st.withOffset off).total_saved = st.total_saved := rfl

/- ## Trace helper lemmas -/

lemma headerFlags_append (l1 l2 : List Ev) :
    headerFlags (l1 ++ l2) = headerFlags l1 ++ headerFlags l2 := by
  induction l1 with
  | nil => rfl
  | cons e tl ih =>
      cases e with
      | fetched y off rows => simpa [headerFlags] using ih
      | appended b rows => simpa [headerFlags] using ih
      | saved st => simpa [headerFlags] using ih

lemma appendsOf_append (l1 l2 : List Ev) :
    appendsOf (l1 ++ l2) = appendsOf l1 ++ appendsOf l2 := by
  induction l1 with
  | nil => rfl
  | cons e tl ih =>
      cases e with
      | fetched y off rows => simpa [appendsOf] using ih
      | appended b rows => simp [appendsOf, ih]
      | saved st => simpa [appendsOf] using ih

/-- The header flags a single process run may emit, given the
written_header flag it starts from: with the flag already set no append
writes a header; with the flag unset the first append (if any) writes
exactly one header and every later append writes none. -/
def headerFlagsOk : Bool → List Bool → Bool
  | _, [] => true
  | true, b :: rest => !b && headerFlagsOk true rest
  | false, b :: rest => b && headerFlagsOk true rest

@[simp] lemma headerFlagsOk_nil (wh : Bool) : headerFlagsOk wh [] = true := by
  cases wh <;> rfl

lemma GetData.headerFlags_ok (fetch : Int → Int → List Row) :
    ∀ (fuel : Nat) (y off : Int) (st : St),
      headerFlagsOk st.written_header
        (headerFlags (GetData.runAux fetch y off st fuel).1) = true ∧
      (GetData.runAux fetch y off st fuel).2.written_header =
        (st.written_header ||
          !(headerFlags (GetData.runAux fetch y off st fuel).1).isEmpty) := by
  intro fuel
  induction fuel with
  | zero =>
      intro y off st
      simp [GetData.runAux_zero, headerFlags]
  | succ fuel ih =>
      intro y off st
      by_cases h1 : y < YEAR_START
      · simp [GetData.runAux_done fetch y off st fuel h1, headerFlags]
      by_cases h2 : fetch y off = []
      · rw [GetData.runAux_emptyPage fetch y off st fuel h1 h2]
        simp only [headerFlags]
        have hrec := ih (y - 1) 1 (st.exhaustYear y)
        rw [St.exhaustYear_written_header] at hrec
        exact hrec
      by_cases h3 : (fetch y off).length < RPP
      · rw [GetData.runAux_shortPage fetch y off st fuel h1 h2 h3]
        simp only [headerFlags]
        have hrec := ih (y - 1) 1 ((st.afterAppend (fetch y off).length).exhaustYear y)
        rw [St.exhaustYear_written_header, St.afterAppend_written_header] at hrec
        cases hw : st.written_header
        · simp only [Bool.not_false, headerFlagsOk]
          exact ⟨by simpa using hrec.1, by simp [hrec.2]⟩
        · simp only [Bool.not_true, headerFlagsOk]
          exact ⟨by simpa using hrec.1, by simp [hrec.2]⟩
      · rw [GetData.runAux_fullPage fetch y off st fuel h1 h2 h3]
        simp only [headerFlags]
        have hrec := ih y (off + (RPP : Int))
          ((st.afterAppend (fetch y off).length).withOffset (off + (RPP : Int)))
        rw [St.withOffset_written_header, St.afterAppend_written_header] at hrec
        cases hw : st.written_header
        · simp only [Bool.not_false, headerFlagsOk]
          exact ⟨by simpa using hrec.1, by simp [hrec.2]⟩
        · simp only [Bool.not_true, headerFlagsOk]
          exact ⟨by simpa using hrec.1, by simp [hrec.2]⟩

lemma GetMoreData.headerFlags_evsOf (ids : List String) (y off : Int)
    (rows : List Row) (st : St) :
    headerFlags (GetMoreData.evsOf ids y off rows st) =
      if (dedupFilter ids rows).isEmpty then [] else [!st.written_header] := by
  rw [GetMoreData.evsOf]
  split
  · rfl
  · rfl

lemma GetMoreData.st1Of_written_header (ids : List String) (rows : List Row)
    (st : St) :
    (GetMoreData.st1Of ids rows st).written_header =
      if (dedupFilter ids rows).isEmpty then st.written_header else true := by
  rw [GetMoreData.st1Of]
  split
  · rfl
  · rfl

lemma GetMoreData.runMore_headerFlags_ok (fetch : Int → Int → List Row)
    (ids : List String) :
    ∀ (fuel : Nat) (y off : Int) (st : St),
      headerFlagsOk st.written_header
        (headerFlags (GetMoreData.runAux fetch ids y off st fuel).1) = true ∧
      (GetMoreData.runAux fetch ids y off st fuel).2.written_header =
        (st.written_header ||
          !(headerFlags (GetMoreData.runAux fetch ids y off st fuel).1).isEmpty) := by
  intro fuel
  induction fuel with
  | zero =>
      intro y off st
      simp [GetMoreData.runMore_zero, headerFlags]
  | succ fuel ih =>
      intro y off st
      by_cases h1 : y < YEAR_START
      · simp [GetMoreData.runMore_done fetch ids y off st fuel h1, headerFlags]
      by_cases h2 : fetch y off = []
      · rw [GetMoreData.runMore_emptyPage fetch ids y off st fuel h1 h2]
        simp only [headerFlags]
        have hrec := ih (y - 1) 1 (st.exhaustYear y)
        rw [St.exhaustYear_written_header] at hrec
        exact hrec
      · have key : ∀ (st2 : St) (y2 off2 : Int),
            st2.written_header =
              (GetMoreData.st1Of ids (fetch y off) st).written_header →
            headerFlagsOk st.written_header
              (headerFlags (GetMoreData.evsOf ids y off (fetch y off) st ++
                Ev.saved st2 ::
                (GetMoreData.runAux fetch ids y2 off2 st2 fuel).1)) = true ∧
            (GetMoreData.runAux fetch ids y2 off2 st2 fuel).2.written_header =
              (st.written_header ||
                !(headerFlags (GetMoreData.evsOf ids y off (fetch y off) st ++
                  Ev.saved st2 ::
                  (GetMoreData.runAux fetch ids y2 off2 st2 fuel).1)).isEmpty) := by
          intro st2 y2 off2 hwh
          rw [headerFlags_append, GetMoreData.headerFlags_evsOf]
          have hrec := ih y2 off2 st2
          rw [hwh, GetMoreData.st1Of_written_header] at hrec
          by_cases hdrop : (dedupFilter ids (fetch y off)).isEmpty
          · rw [if_pos hdrop]
            rw [if_pos hdrop] at hrec
            simp only [List.nil_append, headerFlags]
            exact hrec
          · rw [if_neg hdrop]
            rw [if_neg hdrop] at hrec
            simp only [List.cons_append, List.nil_append, headerFlags]
            cases hw : st.written_header
            · simp only [Bool.not_false, headerFlagsOk]
              exact ⟨by simpa using hrec.1, by simp [hrec.2]⟩
            · simp only [Bool.not_true, headerFlagsOk]
              exact ⟨by simpa using hrec.1, by simp [hrec.2]⟩
        by_cases h3 : (fetch y off).length < RPP
        · rw [GetMoreData.runMore_shortPage fetch ids y off st fuel h1 h2 h3]
          exact key ((GetMoreData.st1Of ids (fetch y off) st).exhaustYear y)
            (y - 1) 1 (St.exhaustYear_written_header _ _)
        · rw [GetMoreData.runMore_fullPage fetch ids y off st fuel h1 h2 h3]
          exact key ((GetMoreData.st1Of ids (fetch y off) st).withOffset
            (off + (RPP : Int))) y (off + (RPP : Int))
            (St.withOffset_written_header _ _)

/-- C8: within one process run the output header is written exactly
once, by the first append that writes at least one row, and never
again: starting with written_header unset, the emitted header flags are
a (possibly empty) sequence whose first element alone is true; starting
with it set, no append emits a header.  The final written_header is the
initial one or-ed with whether any rows were appended, so the flag
flips to true at the first writing append and stays true.  In both
merge routines the header decision is computed from written_header in
the state (plus, in incremental mode, the filtered batch itself), never
from the output file contents. -/
theorem c8_header_written_exactly_once
    (fetch : Int → Int → List Row) (existing : List String) (y off : Int)
    (st : St) (fuel : Nat) :
    headerFlagsOk st.written_header
      (headerFlags (GetData.runAux fetch y off st fuel).1) = true ∧
    headerFlagsOk st.written_header
      (headerFlags (GetMoreData.runAux fetch existing y off st fuel).1) = true ∧
    (GetData.runAux fetch y off st fuel).2.written_header =
      (st.written_header ||
        !(headerFlags (GetData.runAux fetch y off st fuel).1).isEmpty) ∧
    (GetMoreData.runAux fetch existing y off st fuel).2.written_header =
      (st.written_header ||
        !(headerFlags (GetMoreData.runAux fetch existing y off st fuel).1).isEmpty) ∧
    (∀ (df : List Row) (out : Out),
      (GetData.append_chunk df st out).2.headers =
        out.headers + (if !st.written_header then 1 else 0)) ∧
    (∀ (df : List Row) (ids : List String) (out : Out),
      (GetMoreData.append_chunk df st ids out).2.2.headers =
        out.headers +
          (if !st.written_header && !(dedupFilter ids df).isEmpty then 1 else 0)) := by
  refine ⟨(GetData.headerFlags_ok fetch fuel y off st).1,
          (GetMoreData.runMore_headerFlags_ok fetch existing fuel y off st).1,
          (GetData.headerFlags_ok fetch fuel y off st).2,
          (GetMoreData.runMore_headerFlags_ok fetch existing fuel y off st).2,
          ?_, ?_⟩
  · intro df out
    rfl
  · intro df ids out
    rw [GetMoreData.append_chunk]
    by_cases hdrop : (dedupFilter ids df).isEmpty
    · rw [if_pos hdrop]
      simp [hdrop]
    · rw [if_neg hdrop]
      simp only [hdrop]
      simp [Bool.not_false, Bool.and_true]

/- ## Idempotence of the incremental run -/

/-- Event predicate: every record a fetch event returned carries an id
that is already contained in the given existing-id set. -/
def fetchRowsOk (existing : List String) : Ev → Bool
  | Ev.fetched _ _ rs =>
      rs.all (fun r =>
        match r.id? with
        | some i => decide (i ∈ existing)
        | none => false)
  | _ => true

lemma dedupFilter_eq_nil_of_all_dup (ids : List String) (df : List Row)
    (h : df.all (fun r =>
        match r.id? with
        | some i => decide (i ∈ ids)
        | none => false) = true) :
    dedupFilter ids df = [] := by
  match df with
  | [] => rfl
  | r0 :: tl =>
      have hall := List.all_eq_true.mp h
      have h0 := hall r0 (List.mem_cons_self r0 tl)
      have hany : (r0 :: tl).any (fun r => (r.id?).isSome) = true := by
        simp only [List.any_cons, Bool.or_eq_true]
        left
        match h0id : r0.id? with
        | some i => rfl
        | none => rw [h0id] at h0; exact absurd h0 (by simp)
      rw [dedupFilter, if_pos hany]
      rw [List.filter_eq_nil_iff]
      intro r hr
      have hrdup := hall r hr
      match hid : r.id? with
      | some i =>
          rw [hid] at hrdup
          simp only [decide_eq_true_eq] at hrdup
          simp [hrdup]
      | none => rw [hid] at hrdup; exact absurd hrdup (by simp)

lemma GetMoreData.st1Of_dropped (ids : List String) (rows : List Row) (st : St)
    (h : dedupFilter ids rows = []) : GetMoreData.st1Of ids rows st = st := by
  rw [GetMoreData.st1Of, h]
  rfl

lemma GetMoreData.evsOf_dropped (ids : List String) (y off : Int)
    (rows : List Row) (st : St) (h : dedupFilter ids rows = []) :
    GetMoreData.evsOf ids y off rows st =
      [Ev.fetched y off rows, Ev.saved st] := by
  rw [GetMoreData.evsOf, GetMoreData.st1Of, h]
  rfl

lemma GetMoreData.evsOf_kept (ids : List String) (y off : Int)
    (rows : List Row) (st : St) (h : ¬ (dedupFilter ids rows).isEmpty = true) :
    GetMoreData.evsOf ids y off rows st =
      [Ev.fetched y off rows,
       Ev.appended (!st.written_header) (dedupFilter ids rows),
       Ev.saved (GetMoreData.st1Of ids rows st)] := by
  rw [GetMoreData.evsOf, if_neg h]

/-- When every fetch of a get_more_data.py run returns only records
whose ids are already in the existing set, the run appends nothing and
total_saved never moves. -/
lemma GetMoreData.no_new_rows (fetch : Int → Int → List Row)
    (ids : List String) :
    ∀ (fuel : Nat) (y off : Int) (st : St),
      ((GetMoreData.runAux fetch ids y off st fuel).1).all (fetchRowsOk ids) = true →
      appendsOf (GetMoreData.runAux fetch ids y off st fuel).1 = [] ∧
      (GetMoreData.runAux fetch ids y off st fuel).2.total_saved = st.total_saved := by
  intro fuel
  induction fuel with
  | zero =>
      intro y off st _
      rw [GetMoreData.runMore_zero]
      exact ⟨rfl, rfl⟩
  | succ fuel ih =>
      intro y off st hall
      by_cases h1 : y < YEAR_START
      · rw [GetMoreData.runMore_done fetch ids y off st fuel h1]
        exact ⟨rfl, rfl⟩
      by_cases h2 : fetch y off = []
      · rw [GetMoreData.runMore_emptyPage fetch ids y off st fuel h1 h2] at hall ⊢
        simp only [List.all_cons, Bool.and_eq_true] at hall
        have hrec := ih (y - 1) 1 (st.exhaustYear y) hall.2.2
        simp only [appendsOf]
        exact ⟨hrec.1, by rw [hrec.2]; simp⟩
      · have hdup : (fetch y off).all (fun r =>
            match r.id? with
            | some i => decide (i ∈ ids)
            | none => false) = true := by
          by_cases h3 : (fetch y off).length < RPP
          · rw [GetMoreData.runMore_shortPage fetch ids y off st fuel h1 h2 h3] at hall
            simp only [List.all_append, Bool.and_eq_true] at hall
            have := List.all_eq_true.mp hall.1 (Ev.fetched y off (fetch y off)) ?memf
            · simpa [fetchRowsOk] using this
            · rw [GetMoreData.evsOf]
              split
              · exact List.mem_cons_self _ _
              · exact List.mem_cons_self _ _
          · rw [GetMoreData.runMore_fullPage fetch ids y off st fuel h1 h2 h3] at hall
            simp only [List.all_append, Bool.and_eq_true] at hall
            have := List.all_eq_true.mp hall.1 (Ev.fetched y off (fetch y off)) ?memf2
            · simpa [fetchRowsOk] using this
            · rw [GetMoreData.evsOf]
              split
              · exact List.mem_cons_self _ _
              · exact List.mem_cons_self _ _
        have hnil : dedupFilter ids (fetch y off) = [] :=
          dedupFilter_eq_nil_of_all_dup ids (fetch y off) hdup
        have hst1 : GetMoreData.st1Of ids (fetch y off) st = st :=
          GetMoreData.st1Of_dropped ids (fetch y off) st hnil
        have hevs := GetMoreData.evsOf_dropped ids y off (fetch y off) st hnil
        by_cases h3 : (fetch y off).length < RPP
        · rw [GetMoreData.runMore_shortPage fetch ids y off st fuel h1 h2 h3]
            at hall ⊢
          rw [hevs, hst1] at hall ⊢
          simp only [List.cons_append, List.nil_append, List.all_cons,
            Bool.and_eq_true] at hall
          have hrec := ih (y - 1) 1 ((st.exhaustYear y)) hall.2.2.2
          simp only [appendsOf]
          exact ⟨hrec.1, by rw [hrec.2]; simp⟩
        · rw [GetMoreData.runMore_fullPage fetch ids y off st fuel h1 h2 h3]
            at hall ⊢
          rw [hevs, hst1] at hall ⊢
          simp only [List.cons_append, List.nil_append, List.all_cons,
            Bool.and_eq_true] at hall
          have hrec := ih y (off + (RPP : Int)) (st.withOffset (off + (RPP : Int)))
            hall.2.2.2
          simp only [appendsOf]
          exact ⟨hrec.1, by rw [hrec.2]; simp⟩

/-- C7 as amended: a second incremental run appends zero rows and ends
with total_saved unchanged provided every record the source returns
carries an id that is already in the loaded existing-id set.  (As
stated, the claim fails: when the fetched records carry no id field at
all, which is what the configured field list requests, the duplicate
filter never applies and a repeat run re-appends every record; see the
counterexample.) -/
theorem c7_amended_no_new_ids_appends_nothing
    (fetch : Int → Int → List Row) (existing : List String) (st0 : St)
    (fuel : Nat)
    (h : ((GetMoreData.mainRun fetch existing st0 fuel).1).all
          (fetchRowsOk existing) = true) :
    appendsOf (GetMoreData.mainRun fetch existing st0 fuel).1 = [] ∧
    (GetMoreData.mainRun fetch existing st0 fuel).2.total_saved =
      st0.total_saved :=
  GetMoreData.no_new_rows fetch existing fuel st0.year (max st0.offset 1) st0 h

/-- Witness environment for the amended C7: one id-carrying record for
year 2024 whose id is already persisted. -/
def envC7 : Int → Int → List Row := fun y off =>
  if y = 2024 ∧ off = 1 then [⟨some "A1", 0⟩] else []

/-- Witness for the amended C7. -/
theorem c7_amended_witness :
    appendsOf (GetMoreData.mainRun envC7 ["A1"] ⟨2024, 1, true, 7⟩ 8).1 = [] ∧
    (GetMoreData.mainRun envC7 ["A1"] ⟨2024, 1, true, 7⟩ 8).2.total_saved = 7 :=
  c7_amended_no_new_ids_appends_nothing envC7 ["A1"] ⟨2024, 1, true, 7⟩ 8
    (by decide)

/-- Environment for the C7 counterexample: the source returns the same
single record, carrying no id field, on every run. -/
def envC7x : Int → Int → List Row := fun y off =>
  if y = 2024 ∧ off = 1 then [⟨none, 0⟩] else []

/-- Counterexample for C7: with the remote source returning the same
id-less records both times (the configured printFields requests no id),
a first completed incremental run saves 1 row; the second run, started
from the persisted checkpoint with the ids loaded from the produced
output (which yields the empty set because the output has no id
column), appends the same record again and ends with total_saved 2,
not 1.  Year bound 2025 plays the current calendar year of
get_more_data.py. -/
theorem c7_second_run_duplicates_without_id_column :
    (GetMoreData.mainRun envC7x (load_existing_ids false ⟨0, []⟩)
        ⟨2025, 1, false, 0⟩ 12).2.total_saved = 1 ∧
    appendsOf (GetMoreData.mainRun envC7x
        (load_existing_ids true
          ⟨1, appendsOf (GetMoreData.mainRun envC7x (load_existing_ids false ⟨0, []⟩)
                ⟨2025, 1, false, 0⟩ 12).1⟩)
        (loadFromSaved YEAR_START 2025
          (GetMoreData.mainRun envC7x (load_existing_ids false ⟨0, []⟩)
            ⟨2025, 1, false, 0⟩ 12).2) 12).1 = [⟨none, 0⟩] ∧
    (GetMoreData.mainRun envC7x
        (load_existing_ids true
          ⟨1, appendsOf (GetMoreData.mainRun envC7x (load_existing_ids false ⟨0, []⟩)
                ⟨2025, 1, false, 0⟩ 12).1⟩)
        (loadFromSaved YEAR_START 2025
          (GetMoreData.mainRun envC7x (load_existing_ids false ⟨0, []⟩)
            ⟨2025, 1, false, 0⟩ 12).2) 12).2.total_saved = 2 := by
  decide

/- ## Checkpoint placement and crash resume (get_data.py) -/

/-- Checks that every append event of a trace is immediately followed
by a checkpoint save. -/
def appendsFollowedBySaveB : List Ev → Bool
  | [] => true
  | Ev.appended _ _ :: rest =>
      (match rest with
       | Ev.saved _ :: _ => true
       | _ => false) && appendsFollowedBySaveB rest
  | _ :: rest => appendsFollowedBySaveB rest

lemma appendsFollowedBySaveB_cons_fetched (y off : Int) (rs : List Row)
    (rest : List Ev) :
    appendsFollowedBySaveB (Ev.fetched y off rs :: rest) =
      appendsFollowedBySaveB rest := rfl

lemma appendsFollowedBySaveB_cons_saved (st : St) (rest : List Ev) :
    appendsFollowedBySaveB (Ev.saved st :: rest) =
      appendsFollowedBySaveB rest := rfl

lemma appendsFollowedBySaveB_cons_appended_saved (b : Bool) (rs : List Row)
    (st : St) (rest : List Ev) :
    appendsFollowedBySaveB (Ev.appended b rs :: Ev.saved st :: rest) =
      appendsFollowedBySaveB (Ev.saved st :: rest) := rfl

/-- The check performed at one save point st of a trace whose remainder
is rest: when the very next event is a fetch, the process restarted
from the persisted st (through the checkpoint load clamp) must resume
fetching at exactly that year and offset, and with some fuel bound at
most F its whole trace must reproduce rest, so nothing is duplicated or
skipped. -/
def GetData.cleanCheck (fetch : Int → Int → List Row) (F : Nat) (st : St)
    (rest : List Ev) : Bool :=
  match rest with
  | Ev.fetched y off _ :: _ =>
      decide (y = (loadFromSaved YEAR_START YEAR_END st).year) &&
      decide (off = max (loadFromSaved YEAR_START YEAR_END st).offset 1) &&
      (List.range (F + 1)).any
        (fun f => decide ((GetData.resumeRun fetch st f).1 = rest))
  | _ => true

/-- Runs cleanCheck at every save point of a trace. -/
def GetData.resumesB (fetch : Int → Int → List Row) (F : Nat) : List Ev → Bool
  | [] => true
  | Ev.saved st :: rest =>
      GetData.cleanCheck fetch F st rest && GetData.resumesB fetch F rest
  | _ :: rest => GetData.resumesB fetch F rest

lemma GetData.resumesB_cons_fetched (fetch : Int → Int → List Row) (F : Nat)
    (y off : Int) (rs : List Row) (rest : List Ev) :
    GetData.resumesB fetch F (Ev.fetched y off rs :: rest) =
      GetData.resumesB fetch F rest := rfl

lemma GetData.resumesB_cons_appended (fetch : Int → Int → List Row) (F : Nat)
    (b : Bool) (rs : List Row) (rest : List Ev) :
    GetData.resumesB fetch F (Ev.appended b rs :: rest) =
      GetData.resumesB fetch F rest := rfl

lemma GetData.resumesB_cons_saved (fetch : Int → Int → List Row) (F : Nat)
    (st : St) (rest : List Ev) :
    GetData.resumesB fetch F (Ev.saved st :: rest) =
      (GetData.cleanCheck fetch F st rest && GetData.resumesB fetch F rest) := rfl

lemma GetData.cleanCheck_cons_saved (fetch : Int → Int → List Row) (F : Nat)
    (st st2 : St) (rest : List Ev) :
    GetData.cleanCheck fetch F st (Ev.saved st2 :: rest) = true := rfl

/-- A non-empty trace of the loop starts with the fetch of the entry
page, and the loop only fetches when the year is in range. -/
lemma GetData.runAux_head (fetch : Int → Int → List Row) (fuel : Nat)
    (y off : Int) (st : St) (e : Ev) (tr : List Ev)
    (h : (GetData.runAux fetch y off st fuel).1 = e :: tr) :
    e = Ev.fetched y off (fetch y off) ∧ YEAR_START ≤ y := by
  match fuel with
  | 0 =>
      rw [GetData.runAux_zero] at h
      exact absurd h (by simp)
  | fuel + 1 =>
      by_cases h1 : y < YEAR_START
      · rw [GetData.runAux_done fetch y off st fuel h1] at h
        exact absurd h (by simp)
      by_cases h2 : fetch y off = []
      · rw [GetData.runAux_emptyPage fetch y off st fuel h1 h2] at h
        obtain ⟨he, -⟩ := List.cons.inj h
        exact ⟨by rw [h2]; exact he.symm, by omega⟩
      by_cases h3 : (fetch y off).length < RPP
      · rw [GetData.runAux_shortPage fetch y off st fuel h1 h2 h3] at h
        obtain ⟨he, -⟩ := List.cons.inj h
        exact ⟨he.symm, by omega⟩
      · rw [GetData.runAux_fullPage fetch y off st fuel h1 h2 h3] at h
        obtain ⟨he, -⟩ := List.cons.inj h
        exact ⟨he.symm, by omega⟩

/-- cleanCheck holds at a save whose remainder is exactly the loop
restarted from the saved state, provided the saved year is at most
YEAR_END and the remainder fits in the fuel bound. -/
lemma GetData.cleanCheck_run (fetch : Int → Int → List Row) (F fuel : Nat)
    (st2 : St) (hf : fuel ≤ F) (hle : st2.year ≤ YEAR_END) :
    GetData.cleanCheck fetch F st2
      (GetData.runAux fetch st2.year (max st2.offset 1) st2 fuel).1 = true := by
  cases hrest : (GetData.runAux fetch st2.year (max st2.offset 1) st2 fuel).1 with
  | nil => rfl
  | cons e tail =>
      obtain ⟨he, hys⟩ :=
        GetData.runAux_head fetch fuel st2.year (max st2.offset 1) st2 e tail hrest
      have hload : loadFromSaved YEAR_START YEAR_END st2 = st2 := by
        rw [loadFromSaved, if_neg (by omega)]
      subst he
      simp only [GetData.cleanCheck, hload, Bool.and_eq_true, decide_eq_true_eq,
        List.any_eq_true, List.mem_range]
      refine ⟨⟨trivial, trivial⟩, fuel, by omega, ?_⟩
      rw [GetData.resumeRun, hload, GetData.mainRun, hrest]

/-- Every save point of a get_data.py run that is immediately followed
by a fetch resumes cleanly: this is the induction over the loop. -/
lemma GetData.resumesB_runAux (fetch : Int → Int → List Row) (F : Nat) :
    ∀ (fuel : Nat), fuel ≤ F → ∀ (y off : Int) (st : St),
      st.year = y → y ≤ YEAR_END → 1 ≤ off →
      GetData.resumesB fetch F (GetData.runAux fetch y off st fuel).1 = true := by
  intro fuel
  induction fuel with
  | zero =>
      intro _ y off st _ _ _
      rw [GetData.runAux_zero]
      rfl
  | succ fuel ih =>
      intro hF y off st hyr hle hoff
      have hfF : fuel ≤ F := by omega
      by_cases h1 : y < YEAR_START
      · rw [GetData.runAux_done fetch y off st fuel h1]
        rfl
      by_cases h2 : fetch y off = []
      · rw [GetData.runAux_emptyPage fetch y off st fuel h1 h2]
        rw [GetData.resumesB_cons_fetched, GetData.resumesB_cons_saved]
        have htail : GetData.runAux fetch (y - 1) 1 (st.exhaustYear y) fuel =
            GetData.runAux fetch (st.exhaustYear y).year
              (max (st.exhaustYear y).offset 1) (st.exhaustYear y) fuel := by
          simp
        have hclean := GetData.cleanCheck_run fetch F fuel (st.exhaustYear y)
          hfF (by simp; omega)
        rw [← htail] at hclean
        rw [hclean]
        have hrec := ih hfF (y - 1) 1 (st.exhaustYear y) (by simp) (by omega)
          (by omega)
        rw [hrec]
        rfl
      have hrpp : (RPP : Int) = 25 := rfl
      by_cases h3 : (fetch y off).length < RPP
      · rw [GetData.runAux_shortPage fetch y off st fuel h1 h2 h3]
        rw [GetData.resumesB_cons_fetched, GetData.resumesB_cons_appended,
          GetData.resumesB_cons_saved, GetData.cleanCheck_cons_saved,
          GetData.resumesB_cons_saved]
        have htail : GetData.runAux fetch (y - 1) 1
              ((st.afterAppend (fetch y off).length).exhaustYear y) fuel =
            GetData.runAux fetch
              ((st.afterAppend (fetch y off).length).exhaustYear y).year
              (max ((st.afterAppend (fetch y off).length).exhaustYear y).offset 1)
              ((st.afterAppend (fetch y off).length).exhaustYear y) fuel := by
          simp
        have hclean := GetData.cleanCheck_run fetch F fuel
          ((st.afterAppend (fetch y off).length).exhaustYear y) hfF
          (by simp; omega)
        rw [← htail] at hclean
        rw [hclean]
        have hrec := ih hfF (y - 1) 1
          ((st.afterAppend (fetch y off).length).exhaustYear y) (by simp)
          (by omega) (by omega)
        rw [hrec]
        rfl
      · rw [GetData.runAux_fullPage fetch y off st fuel h1 h2 h3]
        rw [GetData.resumesB_cons_fetched, GetData.resumesB_cons_appended,
          GetData.resumesB_cons_saved, GetData.cleanCheck_cons_saved,
          GetData.resumesB_cons_saved]
        have htail : GetData.runAux fetch y (off + (RPP : Int))
              ((st.afterAppend (fetch y off).length).withOffset
                (off + (RPP : Int))) fuel =
            GetData.runAux fetch
              ((st.afterAppend (fetch y off).length).withOffset
                (off + (RPP : Int))).year
              (max ((st.afterAppend (fetch y off).length).withOffset
                (off + (RPP : Int))).offset 1)
              ((st.afterAppend (fetch y off).length).withOffset
                (off + (RPP : Int))) fuel := by
          simp only [St.withOffset_year, St.afterAppend_year, hyr,
            St.withOffset_offset]
          rw [max_eq_left (by omega)]
        have hclean := GetData.cleanCheck_run fetch F fuel
          ((st.afterAppend (fetch y off).length).withOffset (off + (RPP : Int)))
          hfF (by simp [hyr]; omega)
        rw [← htail] at hclean
        rw [hclean]
        have hrec := ih hfF y (off + (RPP : Int))
          ((st.afterAppend (fetch y off).length).withOffset (off + (RPP : Int)))
          (by simp [hyr]) (by omega) (by omega)
        rw [hrec]
        rfl

lemma GetData.appendsFollowedBySave_runAux (fetch : Int → Int → List Row) :
    ∀ (fuel : Nat) (y off : Int) (st : St),
      appendsFollowedBySaveB (GetData.runAux fetch y off st fuel).1 = true := by
  intro fuel
  induction fuel with
  | zero => intro y off st; rw [GetData.runAux_zero]; rfl
  | succ fuel ih =>
      intro y off st
      by_cases h1 : y < YEAR_START
      · rw [GetData.runAux_done fetch y off st fuel h1]; rfl
      by_cases h2 : fetch y off = []
      · rw [GetData.runAux_emptyPage fetch y off st fuel h1 h2]
        rw [appendsFollowedBySaveB_cons_fetched, appendsFollowedBySaveB_cons_saved]
        exact ih (y - 1) 1 (st.exhaustYear y)
      by_cases h3 : (fetch y off).length < RPP
      · rw [GetData.runAux_shortPage fetch y off st fuel h1 h2 h3]
        rw [appendsFollowedBySaveB_cons_fetched,
          appendsFollowedBySaveB_cons_appended_saved,
          appendsFollowedBySaveB_cons_saved, appendsFollowedBySaveB_cons_saved]
        exact ih (y - 1) 1 ((st.afterAppend (fetch y off).length).exhaustYear y)
      · rw [GetData.runAux_fullPage fetch y off st fuel h1 h2 h3]
        rw [appendsFollowedBySaveB_cons_fetched,
          appendsFollowedBySaveB_cons_appended_saved,
          appendsFollowedBySaveB_cons_saved, appendsFollowedBySaveB_cons_saved]
        exact ih y (off + (RPP : Int))
          ((st.afterAppend (fetch y off).length).withOffset (off + (RPP : Int)))

lemma GetMoreData.appendsFollowedBySave_runMore (fetch : Int → Int → List Row)
    (ids : List String) :
    ∀ (fuel : Nat) (y off : Int) (st : St),
      appendsFollowedBySaveB (GetMoreData.runAux fetch ids y off st fuel).1 = true := by
  intro fuel
  induction fuel with
  | zero => intro y off st; rw [GetMoreData.runMore_zero]; rfl
  | succ fuel ih =>
      intro y off st
      by_cases h1 : y < YEAR_START
      · rw [GetMoreData.runMore_done fetch ids y off st fuel h1]; rfl
      by_cases h2 : fetch y off = []
      · rw [GetMoreData.runMore_emptyPage fetch ids y off st fuel h1 h2]
        rw [appendsFollowedBySaveB_cons_fetched, appendsFollowedBySaveB_cons_saved]
        exact ih (y - 1) 1 (st.exhaustYear y)
      · have key : ∀ (st2 : St) (y2 off2 : Int),
            appendsFollowedBySaveB
              (GetMoreData.evsOf ids y off (fetch y off) st ++
                Ev.saved st2 ::
                (GetMoreData.runAux fetch ids y2 off2 st2 fuel).1) = true := by
          intro st2 y2 off2
          by_cases hdrop : (dedupFilter ids (fetch y off)).isEmpty
          · rw [GetMoreData.evsOf_dropped ids y off (fetch y off) _
              (by rwa [List.isEmpty_iff] at hdrop)]
            rw [List.cons_append, List.cons_append, List.nil_append]
            rw [appendsFollowedBySaveB_cons_fetched,
              appendsFollowedBySaveB_cons_saved,
              appendsFollowedBySaveB_cons_saved]
            exact ih y2 off2 st2
          · rw [GetMoreData.evsOf_kept ids y off (fetch y off) st hdrop]
            rw [List.cons_append, List.cons_append, List.cons_append,
              List.nil_append]
            rw [appendsFollowedBySaveB_cons_fetched,
              appendsFollowedBySaveB_cons_appended_saved,
              appendsFollowedBySaveB_cons_saved,
              appendsFollowedBySaveB_cons_saved]
            exact ih y2 off2 st2
        by_cases h3 : (fetch y off).length < RPP
        · rw [GetMoreData.runMore_shortPage fetch ids y off st fuel h1 h2 h3]
          exact key _ (y - 1) 1
        · rw [GetMoreData.runMore_fullPage fetch ids y off st fuel h1 h2 h3]
          exact key _ y (off + (RPP : Int))

/-- C1 as amended: (a) in both scripts every append of a fetched page
is immediately followed by a checkpoint save, and the offset advance
and year exhaustion transitions are themselves checkpoint saves, so a
crash loses at most the page in flight; (b) for get_data.py, if the
process is terminated immediately after a checkpoint save that is
followed directly by the next fetch, the restarted run resumes at
exactly the persisted (year, offset) and reproduces the remaining trace
verbatim, duplicating and skipping nothing.  (As stated the claim
fails: the save issued right after append_chunk but before the offset
advance also satisfies "immediately after a checkpoint save and before
the next fetch", and a process killed there re-fetches and re-appends
the same page on restart; see the counterexample.) -/
theorem c1_amended_save_per_page_and_clean_save_resume
    (fetch : Int → Int → List Row) (existing : List String) (st0 : St)
    (fuel : Nat) (h : st0.year ≤ YEAR_END) :
    appendsFollowedBySaveB (GetData.mainRun fetch st0 fuel).1 = true ∧
    appendsFollowedBySaveB (GetMoreData.mainRun fetch existing st0 fuel).1 = true ∧
    GetData.resumesB fetch fuel (GetData.mainRun fetch st0 fuel).1 = true :=
  ⟨GetData.appendsFollowedBySave_runAux fetch fuel st0.year (max st0.offset 1) st0,
   GetMoreData.appendsFollowedBySave_runMore fetch existing fuel st0.year
     (max st0.offset 1) st0,
   GetData.resumesB_runAux fetch fuel fuel (Nat.le_refl fuel) st0.year
     (max st0.offset 1) st0 rfl h (le_max_right _ _)⟩

/-- Witness environment for C1: a single short page for year 2024. -/
def envC1w : Int → Int → List Row := fun y off =>
  if y = 2024 ∧ off = 1 then [⟨none, 0⟩] else []

/-- Witness for the amended C1 at a concrete fresh state and page
environment. -/
theorem c1_amended_witness :
    (⟨2024, 1, false, 0⟩ : St).year ≤ YEAR_END ∧
    (appendsFollowedBySaveB (GetData.mainRun envC1w ⟨2024, 1, false, 0⟩ 8).1 = true ∧
     appendsFollowedBySaveB (GetMoreData.mainRun envC1w [] ⟨2024, 1, false, 0⟩ 8).1 = true ∧
     GetData.resumesB envC1w 8 (GetData.mainRun envC1w ⟨2024, 1, false, 0⟩ 8).1 = true) :=
  ⟨by decide,
   c1_amended_save_per_page_and_clean_save_resume envC1w [] ⟨2024, 1, false, 0⟩ 8
     (by decide)⟩

/-- One full page of RPP records for the C1 counterexample. -/
def page25 : List Row := (List.range RPP).map (fun n => ⟨none, n⟩)

/-- Counterexample environment for C1: year 2024 has exactly one full
page at offset 1; everything else is empty. -/
def envC1 : Int → Int → List Row := fun y off =>
  if y = 2024 ∧ off = 1 then page25 else []

/-- The rows on disk after a crash-and-restart: the process is
terminated immediately after the k-th checkpoint save (keeping the rows
appended up to that point), and the restarted process loads that
persisted state and runs to completion. -/
def GetData.crashResumeAppends (fetch : Int → Int → List Row) (st0 : St)
    (fuel k : Nat) : List Row :=
  appendsOf (cutAfterSave k (GetData.mainRun fetch st0 fuel).1) ++
    appendsOf (GetData.resumeRun fetch
      ((savesOf (GetData.mainRun fetch st0 fuel).1).getD k st0) fuel).1

/-- Counterexample for C1 as stated: the save issued directly after
append_chunk (save index 0, persisting year 2024 offset 1 with the page
already counted in total_saved) is a checkpoint save followed by no
fetch before the next save.  Killing the process right after it and
restarting resumes at the persisted (2024, 1) and fetches the same
page again: the first record now sits twice in the combined output,
while an uninterrupted run stores it once. -/
theorem c1_crash_after_post_append_save_duplicates_page :
    (savesOf (GetData.mainRun envC1 ⟨2024, 1, false, 0⟩ 12).1).getD 0
      ⟨2024, 1, false, 0⟩ = ⟨2024, 1, true, 25⟩ ∧
    (appendsOf (GetData.mainRun envC1 ⟨2024, 1, false, 0⟩ 12).1).count
      ⟨none, 0⟩ = 1 ∧
    (GetData.crashResumeAppends envC1 ⟨2024, 1, false, 0⟩ 12 0).count
      ⟨none, 0⟩ = 2 := by
  decide
